import Mathlib

/-!
Shallow embedding of the startup configuration pipeline of `src/zdns/main.go`
(the `main` function of the zdns command-line tool).  The pure Go string
helpers from the standard library (`strings.Split` for one-character
separators, `strings.Trim` with cutset `"\n"`, `strings.TrimSpace`,
`strings.ToUpper`, `strings.Contains`) are embedded as executable Lean
functions on `List Char` / `String`.  Operating-system effects — reading a
name-server file, reading the OS resolver configuration, stat-ing stdin,
opening the log file, the process-wide lookup-module registry and the chosen
module's stdin capability — are abstracted as a `Sys` record of oracles, and
every `log.Fatal` call site becomes an `Except.error` carrying a `FatalError`
tag, so the pipeline of lines 73–206 of `main.go` is the total function
`runPipeline : RawFlags → Sys → Except FatalError GlobalConf`, in the exact
order of the source.  Side effects that do not influence the produced
configuration or the fatal-error behaviour (`log.SetLevel`, `log.SetOutput`,
`runtime.GOMAXPROCS`, `rand.Seed`, and the final `Initialize` / `DoLookups` /
`Finalize` handoff) are not modelled beyond their guarding checks.
-/

namespace ZDNS

/-- Decidable equality on `Except`, so that concrete runs of the pipeline can
be checked by evaluation. -/
def exceptDecEq {ε α : Type} [DecidableEq ε] [DecidableEq α] : DecidableEq (Except ε α)
  | .error a, .error b =>
    if h : a = b then .isTrue (h ▸ rfl)
    else .isFalse fun hc => h (by cases hc; rfl)
  | .error _, .ok _ => .isFalse fun hc => Except.noConfusion hc
  | .ok _, .error _ => .isFalse fun hc => Except.noConfusion hc
  | .ok a, .ok b =>
    if h : a = b then .isTrue (h ▸ rfl)
    else .isFalse fun hc => h (by cases hc; rfl)

instance {ε α : Type} [DecidableEq ε] [DecidableEq α] : DecidableEq (Except ε α) :=
  exceptDecEq

/-- Go `strings.Split s sep` for a one-character separator, at the level of
character lists.  `splitChar c l` never returns `[]`, and it returns `[[]]` on
the empty input, exactly like Go's `strings.Split("", sep) = [""]`. -/
def splitChar (c : Char) : List Char → List (List Char)
  | [] => [[]]
  | a :: as =>
    if a = c then [] :: splitChar c as
    else
      match splitChar c as with
      | [] => [[a]]
      | h :: t => (a :: h) :: t

/-- Go `strings.Split s sep` for a one-character separator `sep = c`. -/
def splitOnCharGo (s : String) (c : Char) : List String :=
  (splitChar c s.data).map String.mk

/-- Go `strings.Contains s sub` for the one-character substrings used by
`main.go` (the `":"` port-separator test on line 159). -/
def containsChar (s : String) (c : Char) : Bool :=
  s.data.contains c

/-- Go `strings.ToUpper` restricted to the ASCII range, which is all the
pipeline feeds it (module names on line 76 and the class string on
line 112); `Char.toUpper` uppercases exactly the ASCII letters. -/
def toUpperGo (s : String) : String :=
  String.mk (s.data.map Char.toUpper)

/-- Go `strings.Trim s "\n"`: removes leading and trailing newline characters
(line 154 of `main.go`). -/
def trimNewlines (s : String) : String :=
  String.mk (((s.data.dropWhile (· == '\n')).reverse.dropWhile (· == '\n')).reverse)

/-- Go `unicode.IsSpace` on the Latin-1 range: space, tab, newline, vertical
tab, form feed, carriage return, next line, and no-break space.  (The code
points of the Unicode `Zs` category above U+00A0 are not modelled; the
pipeline only ever trims ASCII name-server entries.) -/
def isSpaceGo (c : Char) : Bool :=
  c == ' ' || c == '\t' || c == '\n' || c == '\x0B' || c == '\x0C' || c == '\r' ||
    c == '\u0085' || c == ' '

/-- Go `strings.TrimSpace` (line 160 of `main.go`): removes leading and
trailing white space. -/
def trimSpaceGo (s : String) : String :=
  String.mk (((s.data.dropWhile isSpaceGo).reverse.dropWhile isSpaceGo).reverse)

/-- Test of line 145, `(*servers_string)[0] == '@'`: the first byte of the
designation is the sentinel character. -/
def startsWithAt (s : String) : Bool :=
  match s.data with
  | [] => false
  | c :: _ => c == '@'

/-- Go `s[1:]` on line 146, applied only when the first character is the
one-byte sentinel `'@'`. -/
def dropSentinel (s : String) : String :=
  String.mk s.data.tail

/-- DNS class code `dns.ClassINET` of the miekg/dns dependency (RFC 1035). -/
def ClassINET : Nat := 1

/-- DNS class code `dns.ClassCSNET`. -/
def ClassCSNET : Nat := 2

/-- DNS class code `dns.ClassCHAOS`. -/
def ClassCHAOS : Nat := 3

/-- DNS class code `dns.ClassHESIOD`. -/
def ClassHESIOD : Nat := 4

/-- DNS class code `dns.ClassNONE`. -/
def ClassNONE : Nat := 254

/-- DNS class code `dns.ClassANY`. -/
def ClassANY : Nat := 255

/-- Default value of the `--class` flag (line 70 of `main.go`). -/
def defaultClassString : String := "INET"

/-- Go `time.RFC3339` layout string (line 169 of `main.go`). -/
def RFC3339 : String := "2006-01-02T15:04:05Z07:00"

/-- Go `time.RFC3339Nano` layout string (line 167 of `main.go`). -/
def RFC3339Nano : String := "2006-01-02T15:04:05.999999999Z07:00"

/-- Nanoseconds in `time.Second`, the unit of Go `time.Duration`. -/
def goSecond : Int := 1000000000

/-- Two's-complement wrap-around of Go int64 arithmetic: the multiplication
`time.Second * time.Duration(*timeout)` on lines 109–110 of `main.go` is
performed in int64 (`time.Duration`), so its result is reduced into
`[-2^63, 2^63)`. -/
def wrapInt64 (n : Int) : Int :=
  (n + 9223372036854775808) % 18446744073709551616 - 9223372036854775808

/-- Tags for every `log.Fatal` site of the modelled part of `main.go`. -/
inductive FatalError
  | invalidModule
  | logFileError
  | unknownVerbosity
  | unknownClass
  | nsConfigError
  | nsFileUnreadable
  | nsFileEmpty
  | negativeGoMaxProcs
  | transportConflict
  | invalidResultVerbosity
  | unusedArgs
  | stdinNotAllowed
deriving DecidableEq

/-- Logrus log levels assigned by the verbosity switch (lines 94–107). -/
inductive LogLevel
  | fatal
  | error
  | warn
  | info
  | debug
deriving DecidableEq

/-- Verbosity switch of lines 94–107: levels 1–5 map to logrus levels, any
other value is fatal (`none`). -/
def logLevelOfVerbosity (v : Int) : Option LogLevel :=
  if v = 1 then some .fatal
  else if v = 2 then some .error
  else if v = 3 then some .warn
  else if v = 4 then some .info
  else if v = 5 then some .debug
  else none

/-- Class switch of lines 112–128: `switch strings.ToUpper(*class_string)`
with the synonym table of `main.go`; the default case is fatal (`none`). -/
def classOfString (s : String) : Option Nat :=
  let u := toUpperGo s
  if u = "INET" ∨ u = "IN" then some ClassINET
  else if u = "CSNET" ∨ u = "CS" then some ClassCSNET
  else if u = "CHAOS" ∨ u = "CH" then some ClassCHAOS
  else if u = "HESIOD" ∨ u = "HS" then some ClassHESIOD
  else if u = "NONE" then some ClassNONE
  else if u = "ANY" then some ClassANY
  else none

/-- Raw values of the command-line flags (and of the first positional
argument, `os.Args[1]`) that influence the modelled pipeline; the purely
pass-through flags (`--threads`, `--retries`, `--prefix`, …) are omitted as
they take part in no check or derivation. -/
structure RawFlags where
  Module : String
  LogFilePath : String
  Verbosity : Int
  class_string : String
  servers_string : String
  config_file : String
  timeout : Int
  iterationTimeout : Int
  nanoSeconds : Bool
  IterativeResolution : Bool
  InputFilePath : String
  ResultVerbosity : String
  IncludeInOutput : String
  GoMaxProcs : Int
  TCPOnly : Bool
  UDPOnly : Bool
deriving DecidableEq

/-- Oracles for every operating-system or external-package effect the
pipeline consults: `zdns.GetLookup` (whether the registry has a factory for
the upper-cased module name), `factory.AllowStdIn()`, `ioutil.ReadFile`
(`none` models a read error), `zdns.GetDNSServers` (`none` models a
read/parse error of the resolver configuration), the fixed
`zdns.RootServers` array, the char-device bit of `os.Stdin.Stat()`, the
leftover arguments `flags.Args()`, and whether `os.OpenFile` succeeds on the
log path. -/
structure Sys where
  GetLookup : String → Bool
  AllowStdIn : Bool
  readFile : String → Option String
  GetDNSServers : String → Option (List String)
  RootServers : List String
  stdinIsCharDevice : Bool
  args : List String
  logFileOpens : String → Bool

/-- Port-repair loop of lines 158–162: every entry without a `":"` is
whitespace-trimmed and given the default port `":53"`; entries with a `":"`
are left untouched. -/
def addDefaultPorts (ns : List String) : List String :=
  ns.map fun s => if containsChar s ':' then s else trimSpaceGo s ++ ":53"

/-- Name-server resolution of lines 129–165: empty designation takes the
root-server set (iterative mode) or the OS resolver configuration; an
`@file` designation reads the file (unreadable and empty files are fatal)
and splits the newline-trimmed content on newlines; an inline designation
splits on commas; both explicit branches then pass through the port-repair
loop and set the explicit-provenance flag. -/
def resolveNameServers (rc : RawFlags) (sys : Sys) : Except FatalError (List String × Bool) :=
  if rc.servers_string = "" then
    if rc.IterativeResolution then .ok (sys.RootServers, false)
    else
      match sys.GetDNSServers rc.config_file with
      | none => .error .nsConfigError
      | some ns => .ok (ns, false)
  else
    match
      (if startsWithAt rc.servers_string then
        match sys.readFile (dropSentinel rc.servers_string) with
        | none => Except.error FatalError.nsFileUnreadable
        | some f =>
          if f = "" then Except.error FatalError.nsFileEmpty
          else Except.ok (splitOnCharGo (trimNewlines f) '\n')
      else Except.ok (splitOnCharGo rc.servers_string ','))
    with
    | .error e => .error e
    | .ok ns => .ok (addDefaultPorts ns, true)

/-- Output-group composition of lines 181–187: split `--include-fields` on
commas, reject a result verbosity outside the four tiers, and prepend the
tier to the split fields. -/
def composeOutputGroups (rv fields : String) : Except FatalError (List String) :=
  let groups := splitOnCharGo fields ','
  if rv ≠ "short" ∧ rv ≠ "normal" ∧ rv ≠ "long" ∧ rv ≠ "trace" then
    .error .invalidResultVerbosity
  else .ok (rv :: groups)

/-- Ad-hoc query-name rule of lines 189–198: leftover arguments become the
passed name only when stdin is a character device, the input file is the
stdin sentinel `"-"`, and exactly one argument is left; any other leftover
situation is fatal; with no leftovers the passed name keeps Go's zero value
`""`. -/
def adhocName (stdinIsCharDevice : Bool) (inputFilePath : String) (args : List String) :
    Except FatalError String :=
  if args.length > 0 then
    if stdinIsCharDevice = true ∧ inputFilePath = "-" ∧ args.length = 1 then
      .ok (args.headD "")
    else .error .unusedArgs
  else .ok ""

/-- The fields of `zdns.GlobalConf` that the modelled pipeline writes. -/
structure GlobalConf where
  Module : String
  LogFilePath : String
  Verbosity : Int
  Timeout : Int
  IterationTimeout : Int
  Class : Nat
  NameServers : List String
  NameServersSpecified : Bool
  TimeFormat : String
  GoMaxProcs : Int
  TCPOnly : Bool
  UDPOnly : Bool
  IterativeResolution : Bool
  InputFilePath : String
  ResultVerbosity : String
  IncludeInOutput : String
  OutputGroups : List String
  PassedName : String
deriving DecidableEq

/-- Lines 73–206 of `main.go` in source order: module-registry lookup, log
file opening, the verbosity switch, timeout conversion, the class switch,
name-server resolution, timestamp-format selection, the `--go-processes`
sign check, the TCP-only/UDP-only exclusion, output-group composition, the
leftover-argument rule, and the module stdin-capability check; the first
`log.Fatal` reached is returned as the error.  On success the produced
`GlobalConf` is what gets handed to `factory.Initialize` and
`zdns.DoLookups`. -/
def runPipeline (rc : RawFlags) (sys : Sys) : Except FatalError GlobalConf :=
  if sys.GetLookup (toUpperGo rc.Module) = false then .error .invalidModule
  else if rc.LogFilePath ≠ "" ∧ sys.logFileOpens rc.LogFilePath = false then
    .error .logFileError
  else
    match logLevelOfVerbosity rc.Verbosity with
    | none => .error .unknownVerbosity
    | some _ =>
      match classOfString rc.class_string with
      | none => .error .unknownClass
      | some c =>
        match resolveNameServers rc sys with
        | .error e => .error e
        | .ok nsp =>
          if rc.GoMaxProcs < 0 then .error .negativeGoMaxProcs
          else if rc.UDPOnly = true ∧ rc.TCPOnly = true then .error .transportConflict
          else
            match composeOutputGroups rc.ResultVerbosity rc.IncludeInOutput with
            | .error e => .error e
            | .ok og =>
              match adhocName sys.stdinIsCharDevice rc.InputFilePath sys.args with
              | .error e => .error e
              | .ok pn =>
                if sys.AllowStdIn = false ∧ rc.InputFilePath = "-" then
                  .error .stdinNotAllowed
                else
                  .ok {
                    Module := toUpperGo rc.Module
                    LogFilePath := rc.LogFilePath
                    Verbosity := rc.Verbosity
                    Timeout := wrapInt64 (goSecond * rc.timeout)
                    IterationTimeout := wrapInt64 (goSecond * rc.iterationTimeout)
                    Class := c
                    NameServers := nsp.1
                    NameServersSpecified := nsp.2
                    TimeFormat := if rc.nanoSeconds then RFC3339Nano else RFC3339
                    GoMaxProcs := rc.GoMaxProcs
                    TCPOnly := rc.TCPOnly
                    UDPOnly := rc.UDPOnly
                    IterativeResolution := rc.IterativeResolution
                    InputFilePath := rc.InputFilePath
                    ResultVerbosity := rc.ResultVerbosity
                    IncludeInOutput := rc.IncludeInOutput
                    OutputGroups := og
                    PassedName := pn
                  }

/-- True exactly when the pipeline reaches the engine handoff, i.e. no
`log.Fatal` fires. -/
def pipelineSucceeds (rc : RawFlags) (sys : Sys) : Bool :=
  match runPipeline rc sys with
  | .ok _ => true
  | .error _ => false

/-- Modelled from the spec: claim C2 describes the `@file` content as split
"on line breaks with trailing blank lines trimmed", i.e. with only the
TRAILING newline characters removed before splitting.  The source
(`strings.Trim(string(f), "\n")` on line 154) also trims LEADING newline
characters; this definition follows the claim's words so that the two
behaviours can be compared on a concrete input. -/
def splitTrailingTrimmed (f : String) : List String :=
  splitOnCharGo (String.mk ((f.data.reverse.dropWhile (· == '\n')).reverse)) '\n'

/-- Baseline oracle record for concrete runs: every module is registered and
permits stdin, no file is readable, the OS resolver configuration yields one
server, stdin is a character device, and no positional arguments are left
over. -/
def sys0 : Sys := {
  GetLookup := fun _ => true
  AllowStdIn := true
  readFile := fun _ => none
  GetDNSServers := fun _ => some ["127.0.0.53:53"]
  RootServers := ["198.41.0.4:53"]
  stdinIsCharDevice := true
  args := []
  logFileOpens := fun _ => true }

/-- Baseline flag record: every flag at its default from lines 45–71 of
`main.go`, with the module name `ALOOKUP`. -/
def rc0 : RawFlags := {
  Module := "ALOOKUP"
  LogFilePath := ""
  Verbosity := 3
  class_string := "INET"
  servers_string := ""
  config_file := "/etc/resolv.conf"
  timeout := 15
  iterationTimeout := 4
  nanoSeconds := false
  IterativeResolution := false
  InputFilePath := "-"
  ResultVerbosity := "normal"
  IncludeInOutput := ""
  GoMaxProcs := 0
  TCPOnly := false
  UDPOnly := false }

/-- Oracle record with a readable two-line name-server file and a readable
empty file. -/
def sysFileAB : Sys :=
  { sys0 with
    readFile := fun p =>
      if p = "servers.txt" then some "a.b.c\nd.e.f\n"
      else if p = "empty.txt" then some "" else none }

/-- Oracle record whose name-server file content starts with a blank line. -/
def sysFileLeadingNL : Sys :=
  { sys0 with
    readFile := fun p => if p = "servers.txt" then some "\na.b.c\n" else none }

/-- The configuration produced by a run of `rc0` with `--timeout -1` under
`sys0`: the negative timeout is accepted and stored as a negative
duration. -/
def cfgNeg : GlobalConf := {
  Module := "ALOOKUP"
  LogFilePath := ""
  Verbosity := 3
  Timeout := -1000000000
  IterationTimeout := 4000000000
  Class := 1
  NameServers := ["127.0.0.53:53"]
  NameServersSpecified := false
  TimeFormat := RFC3339
  GoMaxProcs := 0
  TCPOnly := false
  UDPOnly := false
  IterativeResolution := false
  InputFilePath := "-"
  ResultVerbosity := "normal"
  IncludeInOutput := ""
  OutputGroups := ["normal", ""]
  PassedName := "" }

/-- Inversion on a successful pipeline run: every guard along the success
path of `runPipeline` held, and every derived field of the produced
configuration records its stage's result. -/
theorem runPipeline_ok_inv (rc : RawFlags) (sys : Sys) (cfg : GlobalConf)
    (h : runPipeline rc sys = .ok cfg) :
    ¬sys.GetLookup (toUpperGo rc.Module) = false ∧
    ¬(rc.LogFilePath ≠ "" ∧ sys.logFileOpens rc.LogFilePath = false) ∧
    (logLevelOfVerbosity rc.Verbosity).isSome = true ∧
    classOfString rc.class_string = some cfg.Class ∧
    resolveNameServers rc sys = .ok (cfg.NameServers, cfg.NameServersSpecified) ∧
    ¬rc.GoMaxProcs < 0 ∧
    ¬(rc.UDPOnly = true ∧ rc.TCPOnly = true) ∧
    composeOutputGroups rc.ResultVerbosity rc.IncludeInOutput = .ok cfg.OutputGroups ∧
    adhocName sys.stdinIsCharDevice rc.InputFilePath sys.args = .ok cfg.PassedName ∧
    ¬(sys.AllowStdIn = false ∧ rc.InputFilePath = "-") ∧
    cfg.Timeout = wrapInt64 (goSecond * rc.timeout) ∧
    cfg.IterationTimeout = wrapInt64 (goSecond * rc.iterationTimeout) := by
  unfold runPipeline at h
  repeat' split at h
  all_goals try exact Except.noConfusion h
  all_goals injection h with h
  all_goals subst h
  all_goals simp_all

/-- C1: for every explicit comma-separated inline name-server designation,
the pipeline splits the string on commas; each resulting entry lacking a
`":"` port separator is whitespace-trimmed and given the fixed default port
`":53"`, and entries already containing a port separator receive no port.
The resolved list is explicit (provenance flag `true`) and in input order. -/
theorem inline_servers_split_and_default_port (rc : RawFlags) (sys : Sys)
    (h1 : rc.servers_string ≠ "") (h2 : startsWithAt rc.servers_string = false) :
    ∃ ns, resolveNameServers rc sys = .ok (ns, true) ∧
      ns.length = (splitOnCharGo rc.servers_string ',').length ∧
      ∀ (i : Nat) (e : String), (splitOnCharGo rc.servers_string ',')[i]? = some e →
        ns[i]? = some (if containsChar e ':' = true then e else trimSpaceGo e ++ ":53") := by
  refine ⟨addDefaultPorts (splitOnCharGo rc.servers_string ','), ?_, ?_, ?_⟩
  · simp [resolveNameServers, h1, h2]
  · simp [addDefaultPorts]
  · intro i e he
    simp [addDefaultPorts, List.getElem?_map, he]

/-- Witness for C1: the input `"10.0.0.1,10.0.0.2:5353"` yields exactly
`["10.0.0.1:53", "10.0.0.2:5353"]`, in that order. -/
theorem inline_servers_split_and_default_port_w :
    resolveNameServers { rc0 with servers_string := "10.0.0.1,10.0.0.2:5353" } sys0 =
      .ok (["10.0.0.1:53", "10.0.0.2:5353"], true) ∧
    (∃ ns, resolveNameServers { rc0 with servers_string := "10.0.0.1,10.0.0.2:5353" } sys0 =
        .ok (ns, true) ∧
      ns.length = (splitOnCharGo "10.0.0.1,10.0.0.2:5353" ',').length ∧
      ∀ (i : Nat) (e : String), (splitOnCharGo "10.0.0.1,10.0.0.2:5353" ',')[i]? = some e →
        ns[i]? = some (if containsChar e ':' = true then e else trimSpaceGo e ++ ":53")) :=
  ⟨by decide,
    inline_servers_split_and_default_port
      { rc0 with servers_string := "10.0.0.1,10.0.0.2:5353" } sys0 (by decide) (by decide)⟩

/-- C10: an explicitly designated entry that already contains a `":"`
separator passes the port-repair loop completely verbatim — no whitespace
trimming or other normalization; trimming happens only on entries lacking a
port separator, which also get `":53"` appended. -/
theorem colon_entries_kept_verbatim (l : List String) (i : Nat) (e : String)
    (he : l[i]? = some e) :
    (containsChar e ':' = true → (addDefaultPorts l)[i]? = some e) ∧
    (containsChar e ':' = false → (addDefaultPorts l)[i]? = some (trimSpaceGo e ++ ":53")) := by
  constructor <;> intro hc <;> simp [addDefaultPorts, List.getElem?_map, he, hc]

/-- Witness for C10: the entry `" 1.2.3.4:5353"` is kept with its leading
space. -/
theorem colon_entries_kept_verbatim_w :
    ([" 1.2.3.4:5353"] : List String)[0]? = some " 1.2.3.4:5353" ∧
    containsChar " 1.2.3.4:5353" ':' = true ∧
    (addDefaultPorts [" 1.2.3.4:5353"])[0]? = some " 1.2.3.4:5353" :=
  ⟨by decide, by decide,
    (colon_entries_kept_verbatim [" 1.2.3.4:5353"] 0 " 1.2.3.4:5353" (by decide)).1 (by decide)⟩

/-- C4: for a result-verbosity tier in {short, normal, long, trace} output
composition succeeds and produces the tier followed by the comma-split extra
fields in input order (a single empty-string element when `--include-fields`
is empty); any other tier value is fatal. -/
theorem output_groups_composition (rv fields : String) :
    (rv = "short" ∨ rv = "normal" ∨ rv = "long" ∨ rv = "trace" →
      composeOutputGroups rv fields = .ok (rv :: splitOnCharGo fields ',')) ∧
    (fields = "" → splitOnCharGo fields ',' = [""]) ∧
    (∀ gs, composeOutputGroups rv fields = .ok gs →
      gs.head? = some rv ∧ gs.tail = splitOnCharGo fields ',') ∧
    (rv ≠ "short" → rv ≠ "normal" → rv ≠ "long" → rv ≠ "trace" →
      composeOutputGroups rv fields = .error .invalidResultVerbosity) := by
  refine ⟨?_, ?_, ?_, ?_⟩
  · rintro (h | h | h | h) <;> subst h <;> simp [composeOutputGroups]
  · rintro rfl; decide
  · intro gs hgs
    unfold composeOutputGroups at hgs
    split at hgs
    · exact Except.noConfusion hgs
    · injection hgs with hgs; subst hgs; simp
  · intro h1 h2 h3 h4
    simp [composeOutputGroups, h1, h2, h3, h4]

/-- Witness for C4: tier `"normal"` with empty extra fields produces
`["normal", ""]`, and the tier `"bogus"` is fatal. -/
theorem output_groups_composition_w :
    composeOutputGroups "normal" "" = .ok ["normal", ""] ∧
    composeOutputGroups "bogus" "" = .error .invalidResultVerbosity :=
  ⟨((output_groups_composition "normal" "").1 (by tauto)).trans (by decide),
    (output_groups_composition "bogus" "").2.2.2 (by decide) (by decide) (by decide) (by decide)⟩

/-- C5: leftover positional arguments become the ad-hoc query name exactly
when one argument remains, stdin is an interactive terminal, and the input
file is the default stdin sentinel; any other leftover situation is a fatal
unused-arguments error; with no leftovers no name is set (Go zero value
`""`); on success the accepted name is what the final configuration
records. -/
theorem adhoc_name_acceptance (t : Bool) (ifp : String) (args : List String) :
    (args = [] → adhocName t ifp args = .ok "") ∧
    (∀ a, args = [a] → t = true → ifp = "-" → adhocName t ifp args = .ok a) ∧
    (args ≠ [] → ¬(t = true ∧ ifp = "-" ∧ args.length = 1) →
      adhocName t ifp args = .error .unusedArgs) ∧
    (∀ rc sys cfg, runPipeline rc sys = .ok cfg →
      adhocName sys.stdinIsCharDevice rc.InputFilePath sys.args = .ok cfg.PassedName) := by
  refine ⟨?_, ?_, ?_, ?_⟩
  · rintro rfl; simp [adhocName]
  · rintro a rfl rfl rfl; simp [adhocName]
  · intro h1 h2
    simp only [adhocName]
    rw [if_pos (by simpa using List.length_pos.mpr h1), if_neg h2]
  · intro rc sys cfg h
    exact (runPipeline_ok_inv rc sys cfg h).2.2.2.2.2.2.2.2.1

/-- Witness for C5: one leftover argument with terminal stdin and default
input file is accepted; two leftover arguments are fatal; zero leftovers set
no name. -/
theorem adhoc_name_acceptance_w :
    adhocName true "-" ["example.com"] = .ok "example.com" ∧
    adhocName true "-" ["a", "b"] = .error .unusedArgs ∧
    adhocName false "-" [] = .ok "" :=
  ⟨(adhoc_name_acceptance true "-" ["example.com"]).2.1 "example.com" rfl rfl rfl,
    (adhoc_name_acceptance true "-" ["a", "b"]).2.2.1 (by decide) (by decide),
    (adhoc_name_acceptance false "-" []).1 rfl⟩

/-- C2 (amended): for an `@file` name-server designation the named file is
read; an unreadable file and an empty file are both fatal; otherwise the
content is split on line breaks after trimming leading AND trailing newline
characters (Go `strings.Trim(content, "\n")` trims both ends, not only the
trailing blank lines), and the entries then pass the port-repair loop with
explicit provenance; a resolution error is fatal for the run. -/
theorem atfile_servers_read (rc : RawFlags) (sys : Sys)
    (h1 : startsWithAt rc.servers_string = true) :
    (sys.readFile (dropSentinel rc.servers_string) = none →
      resolveNameServers rc sys = .error .nsFileUnreadable) ∧
    (sys.readFile (dropSentinel rc.servers_string) = some "" →
      resolveNameServers rc sys = .error .nsFileEmpty) ∧
    (∀ f, sys.readFile (dropSentinel rc.servers_string) = some f → f ≠ "" →
      resolveNameServers rc sys =
        .ok (addDefaultPorts (splitOnCharGo (trimNewlines f) '\n'), true)) ∧
    (∀ e, resolveNameServers rc sys = .error e → pipelineSucceeds rc sys = false) := by
  have hne : rc.servers_string ≠ "" := by
    intro hc; rw [hc] at h1; exact absurd h1 (by decide)
  refine ⟨?_, ?_, ?_, ?_⟩
  · intro hr; simp [resolveNameServers, hne, h1, hr]
  · intro hr; simp [resolveNameServers, hne, h1, hr]
  · intro f hr hf; simp [resolveNameServers, hne, h1, hr, hf]
  · intro e he
    unfold pipelineSucceeds
    split
    · rename_i cfg hok
      have hns := (runPipeline_ok_inv rc sys cfg hok).2.2.2.2.1
      rw [he] at hns
      exact Except.noConfusion hns
    · rfl

/-- Counterexample to C2 as stated: on `@file` content `"\na.b.c\n"` the
code, which trims newline characters at BOTH ends before splitting, produces
the single-entry list `["a.b.c:53"]`, while splitting with only the trailing
blank line trimmed — the claim's words — would keep the leading empty entry
and produce `[":53", "a.b.c:53"]`. -/
theorem atfile_servers_read_cex :
    resolveNameServers { rc0 with servers_string := "@servers.txt" } sysFileLeadingNL =
      .ok (["a.b.c:53"], true) ∧
    addDefaultPorts (splitTrailingTrimmed "\na.b.c\n") = [":53", "a.b.c:53"] ∧
    resolveNameServers { rc0 with servers_string := "@servers.txt" } sysFileLeadingNL ≠
      .ok (addDefaultPorts (splitTrailingTrimmed "\na.b.c\n"), true) :=
  ⟨by decide, by decide, by decide⟩

/-- Witness for the amended C2: content `"a.b.c\nd.e.f\n"` yields exactly
the two entries `"a.b.c"` and `"d.e.f"` before port repair, and an empty
file is fatal. -/
theorem atfile_servers_read_w :
    resolveNameServers { rc0 with servers_string := "@servers.txt" } sysFileAB =
      .ok (["a.b.c:53", "d.e.f:53"], true) ∧
    splitOnCharGo (trimNewlines "a.b.c\nd.e.f\n") '\n' = ["a.b.c", "d.e.f"] ∧
    resolveNameServers { rc0 with servers_string := "@empty.txt" } sysFileAB =
      .error .nsFileEmpty :=
  ⟨((atfile_servers_read { rc0 with servers_string := "@servers.txt" } sysFileAB
        (by decide)).2.2.1 "a.b.c\nd.e.f\n" (by decide) (by decide)).trans (by decide),
    by decide,
    (atfile_servers_read { rc0 with servers_string := "@empty.txt" } sysFileAB
        (by decide)).2.1 (by decide)⟩

/-- C3: with an empty `--name-servers` designation, iterative mode resolves
to the fixed built-in root-server set verbatim, non-iterative mode reads the
OS resolver configuration at the configured path and any failure of that
read is fatal for the run; both branches set the explicit-provenance flag to
false, and every successful run records provenance false. -/
theorem default_servers_branches (rc : RawFlags) (sys : Sys)
    (hs : rc.servers_string = "") :
    (rc.IterativeResolution = true → resolveNameServers rc sys = .ok (sys.RootServers, false)) ∧
    (rc.IterativeResolution = false →
      (∀ ns, sys.GetDNSServers rc.config_file = some ns →
        resolveNameServers rc sys = .ok (ns, false)) ∧
      (sys.GetDNSServers rc.config_file = none →
        resolveNameServers rc sys = .error .nsConfigError ∧
        pipelineSucceeds rc sys = false)) ∧
    (∀ cfg, runPipeline rc sys = .ok cfg → cfg.NameServersSpecified = false) := by
  refine ⟨?_, ?_, ?_⟩
  · intro hit; simp [resolveNameServers, hs, hit]
  · intro hit
    refine ⟨?_, ?_⟩
    · intro ns hns; simp [resolveNameServers, hs, hit, hns]
    · intro hns
      have herr : resolveNameServers rc sys = .error .nsConfigError := by
        simp [resolveNameServers, hs, hit, hns]
      refine ⟨herr, ?_⟩
      unfold pipelineSucceeds
      split
      · rename_i cfg hok
        have hx := (runPipeline_ok_inv rc sys cfg hok).2.2.2.2.1
        rw [herr] at hx
        exact Except.noConfusion hx
      · rfl
  · intro cfg hok
    have hx := (runPipeline_ok_inv rc sys cfg hok).2.2.2.2.1
    unfold resolveNameServers at hx
    rw [if_pos hs] at hx
    split at hx
    · injection hx with hx
      exact (congrArg Prod.snd hx).symm
    · split at hx
      · exact Except.noConfusion hx
      · injection hx with hx
        exact (congrArg Prod.snd hx).symm

/-- Witness for C3: iterative mode yields the root-server set, non-iterative
mode yields the OS-configured server, and a failing OS-configuration read is
fatal. -/
theorem default_servers_branches_w :
    resolveNameServers { rc0 with IterativeResolution := true } sys0 =
      .ok (["198.41.0.4:53"], false) ∧
    resolveNameServers rc0 sys0 = .ok (["127.0.0.53:53"], false) ∧
    pipelineSucceeds rc0 { sys0 with GetDNSServers := fun _ => none } = false :=
  ⟨((default_servers_branches { rc0 with IterativeResolution := true } sys0 rfl).1
      rfl).trans (by decide),
    ((default_servers_branches rc0 sys0 rfl).2.1 rfl).1 ["127.0.0.53:53"] rfl,
    (((default_servers_branches rc0 { sys0 with GetDNSServers := fun _ => none } rfl).2.1
      rfl).2 rfl).2⟩

/-- C6: whenever both `--tcp-only` and `--udp-only` are set the pipeline
fails fatally — no configuration is ever handed to the engine — regardless
of every other flag and oracle value. -/
theorem tcp_udp_exclusive (rc : RawFlags) (sys : Sys)
    (h1 : rc.TCPOnly = true) (h2 : rc.UDPOnly = true) :
    pipelineSucceeds rc sys = false := by
  unfold pipelineSucceeds
  split
  · rename_i cfg hok
    have hx := (runPipeline_ok_inv rc sys cfg hok).2.2.2.2.2.2.1
    exact absurd ⟨h2, h1⟩ hx
  · rfl

/-- Witness for C6 at a concrete flag record with both transport flags
set. -/
theorem tcp_udp_exclusive_w :
    ({ rc0 with TCPOnly := true, UDPOnly := true } : RawFlags).TCPOnly = true ∧
    ({ rc0 with TCPOnly := true, UDPOnly := true } : RawFlags).UDPOnly = true ∧
    pipelineSucceeds { rc0 with TCPOnly := true, UDPOnly := true } sys0 = false :=
  ⟨rfl, rfl, tcp_udp_exclusive { rc0 with TCPOnly := true, UDPOnly := true } sys0 rfl rfl⟩

/-- C7: the DNS class mapping is case-insensitive and total over the synonym
table — each full name and its two-letter abbreviation map to the same typed
class code, and `"in"`, `"INET"` and the unset default all map to the INET
code — while an unrecognized class string such as `"bogus"` makes the
pipeline fatal. -/
theorem class_mapping_synonyms :
    (∀ s t, toUpperGo s = toUpperGo t → classOfString s = classOfString t) ∧
    classOfString "in" = some ClassINET ∧
    classOfString "INET" = some ClassINET ∧
    classOfString defaultClassString = some ClassINET ∧
    classOfString "CS" = some ClassCSNET ∧ classOfString "CSNET" = some ClassCSNET ∧
    classOfString "CH" = some ClassCHAOS ∧ classOfString "CHAOS" = some ClassCHAOS ∧
    classOfString "HS" = some ClassHESIOD ∧ classOfString "HESIOD" = some ClassHESIOD ∧
    classOfString "NONE" = some ClassNONE ∧
    classOfString "ANY" = some ClassANY ∧
    classOfString "bogus" = none ∧
    (∀ rc sys, classOfString rc.class_string = none → pipelineSucceeds rc sys = false) := by
  refine ⟨?_, by decide, by decide, by decide, by decide, by decide, by decide, by decide,
    by decide, by decide, by decide, by decide, by decide, ?_⟩
  · intro s t h
    simp only [classOfString, h]
  · intro rc sys hc
    unfold pipelineSucceeds
    split
    · rename_i cfg hok
      have hx := (runPipeline_ok_inv rc sys cfg hok).2.2.2.1
      rw [hc] at hx
      exact Option.noConfusion hx
    · rfl

/-- Witness for C7: mixed-case synonyms agree and the class string
`"bogus"` makes a concrete run fatal. -/
theorem class_mapping_synonyms_w :
    classOfString "In" = classOfString "iN" ∧
    pipelineSucceeds { rc0 with class_string := "bogus" } sys0 = false :=
  ⟨class_mapping_synonyms.1 "In" "iN" (by decide),
    class_mapping_synonyms.2.2.2.2.2.2.2.2.2.2.2.2.2
      { rc0 with class_string := "bogus" } sys0 (by decide)⟩

/-- Counterexample to C8 as stated: the pipeline applies no non-negativity
check to the timeout flags — a run with `--timeout -1` succeeds instead of
being rejected as a fatal flag-domain error. -/
theorem timeout_no_validation_cex :
    ({ rc0 with timeout := -1 } : RawFlags).timeout < 0 ∧
    pipelineSucceeds { rc0 with timeout := -1 } sys0 = true :=
  ⟨by decide, by decide⟩

/-- C8 (amended): the per-query and per-iteration timeout flags are
converted from integer seconds to int64 nanosecond durations with no
validation at all — no non-negativity check exists, so a negative flag value
passes through into the configuration as a negative duration, and the int64
multiplication by `time.Second` silently wraps for magnitudes of roughly
9.3e9 seconds and above. -/
theorem timeout_conversion_unvalidated (rc : RawFlags) (sys : Sys) (cfg : GlobalConf)
    (h : runPipeline rc sys = .ok cfg) :
    cfg.Timeout = wrapInt64 (goSecond * rc.timeout) ∧
    cfg.IterationTimeout = wrapInt64 (goSecond * rc.iterationTimeout) :=
  ⟨(runPipeline_ok_inv rc sys cfg h).2.2.2.2.2.2.2.2.2.2.1,
    (runPipeline_ok_inv rc sys cfg h).2.2.2.2.2.2.2.2.2.2.2⟩

/-- Witness for the amended C8: the run with `--timeout -1` succeeds and
stores the duration `-1000000000` nanoseconds, and at `--timeout 9300000000`
seconds the int64 conversion wraps to a negative duration. -/
theorem timeout_conversion_unvalidated_w :
    runPipeline { rc0 with timeout := -1 } sys0 = .ok cfgNeg ∧
    cfgNeg.Timeout = wrapInt64 (goSecond * (-1)) ∧
    cfgNeg.Timeout = -1000000000 ∧
    cfgNeg.IterationTimeout = wrapInt64 (goSecond * 4) ∧
    wrapInt64 (goSecond * 9300000000) = -9146744073709551616 :=
  ⟨by decide,
    (timeout_conversion_unvalidated { rc0 with timeout := -1 } sys0 cfgNeg (by decide)).1,
    by decide,
    (timeout_conversion_unvalidated { rc0 with timeout := -1 } sys0 cfgNeg (by decide)).2,
    by decide⟩

/-- Counterexample to C9 as stated: with an invalid result verbosity AND
both transport flags set, the reported fatal error is the transport-conflict
error, not the output-composition error — the TCP-only/UDP-only exclusivity
check of line 177 runs before the verbosity check of line 182. -/
theorem stage_order_cex :
    runPipeline { rc0 with ResultVerbosity := "bogus", TCPOnly := true, UDPOnly := true } sys0 =
      .error .transportConflict ∧
    FatalError.transportConflict ≠ FatalError.invalidResultVerbosity :=
  ⟨by decide, by decide⟩

/-- C9 (amended): the pipeline runs registry lookup, flag parse, scalar
normalization and name-server resolution in fixed order, but performs the
transport-exclusivity consistency check BEFORE output composition, stopping
at the first failure; consequently, for any input that passes the earlier
stages and fails both checks, the reported fatal error is the
transport-conflict error, and the output-composition error is reported only
once the transport check passes. -/
theorem stage_order (rc : RawFlags) (sys : Sys)
    (h1 : ¬sys.GetLookup (toUpperGo rc.Module) = false)
    (h2 : ¬(rc.LogFilePath ≠ "" ∧ sys.logFileOpens rc.LogFilePath = false))
    (h3 : (logLevelOfVerbosity rc.Verbosity).isSome = true)
    (h4 : (classOfString rc.class_string).isSome = true)
    (h5 : ∃ p, resolveNameServers rc sys = .ok p)
    (h6 : ¬rc.GoMaxProcs < 0) :
    (rc.UDPOnly = true → rc.TCPOnly = true →
      runPipeline rc sys = .error .transportConflict) ∧
    (¬(rc.UDPOnly = true ∧ rc.TCPOnly = true) →
      rc.ResultVerbosity ≠ "short" → rc.ResultVerbosity ≠ "normal" →
      rc.ResultVerbosity ≠ "long" → rc.ResultVerbosity ≠ "trace" →
      runPipeline rc sys = .error .invalidResultVerbosity) := by
  obtain ⟨lvl, hlvl⟩ := Option.isSome_iff_exists.mp h3
  obtain ⟨c, hc⟩ := Option.isSome_iff_exists.mp h4
  obtain ⟨p, hp⟩ := h5
  constructor
  · intro hU hT
    simp [runPipeline, h1, h2, hlvl, hc, hp, h6, hU, hT]
  · intro hUT hv1 hv2 hv3 hv4
    simp [runPipeline, h1, h2, hlvl, hc, hp, h6, hUT, composeOutputGroups, hv1, hv2, hv3, hv4]

/-- Witness for the amended C9: the combined failing input reports the
transport conflict; with the transport flags cleared the same invalid
verbosity reports the output-composition error. -/
theorem stage_order_w :
    runPipeline { rc0 with ResultVerbosity := "bogus", TCPOnly := true, UDPOnly := true } sys0 =
      .error .transportConflict ∧
    runPipeline { rc0 with ResultVerbosity := "bogus" } sys0 =
      .error .invalidResultVerbosity :=
  ⟨(stage_order { rc0 with ResultVerbosity := "bogus", TCPOnly := true, UDPOnly := true } sys0
      (by decide) (by decide) (by decide) (by decide)
      ⟨(["127.0.0.53:53"], false), by decide⟩ (by decide)).1 rfl rfl,
    (stage_order { rc0 with ResultVerbosity := "bogus" } sys0
      (by decide) (by decide) (by decide) (by decide)
      ⟨(["127.0.0.53:53"], false), by decide⟩ (by decide)).2
      (by decide) (by decide) (by decide) (by decide) (by decide)⟩

end ZDNS
